import Mathlib

/-!
Verification of the brainsprite.py repository's colormap-deduplication core
and of its sprite-generation pathway (src/brainsprite.py).

Colors are RGBA 4-tuples of exact rational channel values; duplicate
detection compares all four channels for exact equality, as the test
`test_deduplicate_cmap` does with `cmaplist.count(cmap(i)) == 1`.
-/

/-- An RGBA color entry: four channel values in [0,1], compared exactly. -/
structure Color where
  r : ℚ
  g : ℚ
  b : ℚ
  a : ℚ
deriving DecidableEq, Repr, Inhabited

/-- Opaque black, as matplotlib produces from the RGB triple [0, 0, 0]. -/
def black : Color := ⟨0, 0, 0, 1⟩

/-- Opaque white, as matplotlib produces from the RGB triple [1, 1, 1]. -/
def white : Color := ⟨1, 1, 1, 1⟩

/-- A source colormap: either a continuous mapping from a normalized scalar
in [0,1] to a color, or an already-discrete palette with a fixed ordered
list of native entries (the test builds the latter with
`LinearSegmentedColormap.from_list(..., 4)`). -/
inductive SourceColormap where
  | continuous (f : ℚ → Color)
  | discrete (entries : List Color)

/-- The `k` evenly spaced sample points across the domain [0,1]:
`i / (k - 1)` for `i < k`, and the single point 0 when `k = 1`. -/
def samplePoints (k : ℕ) : List ℚ :=
  if k ≤ 1 then [0]
  else (List.range k).map (fun (i : ℕ) => (i : ℚ) / ((k : ℚ) - 1))

/-- Materialize `k` color samples from a source colormap: a continuous map
is evaluated at `k` evenly spaced points; a discrete palette of `N` native
entries contributes the entries at the `k` evenly spaced indices
`i * N / k` (so for `N = 4`, `k = 2` the sampled subset is the entries at
indices 0 and 2). -/
def SourceColormap.sample : SourceColormap → ℕ → List Color
  | .continuous f, k => (samplePoints k).map f
  | .discrete es, k => (List.range k).map (fun i => es.getD (i * es.length / k) default)

/-- The size of the palette a source colormap falls back to when its
sample cannot be deduplicated: a discrete source's native entry count; a
continuous source keeps the requested size `k`. -/
def SourceColormap.nativeSize : SourceColormap → ℕ → ℕ
  | .discrete es, _ => es.length
  | .continuous _, k => k

/-- Does the list contain two entries with all four channel values exactly
equal?  Mirrors the test's `cmaplist.count(cmap(i)) == 1` distinctness
check. -/
def hasDup : List Color → Bool
  | [] => false
  | c :: rest => rest.any (fun x => x == c) || hasDup rest

/-- Error taxonomy of the colormap-deduplication core (spec section 7):
only argument-validity errors are ever raised. -/
inductive CmapError where
  | invalidArgument
deriving DecidableEq, Repr

/-- Modelled from the spec: the colormap-deduplication routine
`_deduplicate_cmap` is called by `src/tests/test_brainsprite.py` but its
definition is not under `src/`.  Following spec section 4.1: reject a
non-positive `target_size`, or one exceeding a discrete source's native
slot count; otherwise sample `target_size` entries and inspect them for
duplicates.  With no duplicates, return the sampled palette and pass the
caller's `annotate` request through.  With duplicates, force the flag to
`false`; on this branch a discrete source's native entries are returned
unchanged, as pinned by the test's assertion `cmap.N == cmap_custom.N`
(the source palette of size 4 comes back although `n_colors=2` was
requested). -/
def deduplicate : SourceColormap → ℤ → Bool → Except CmapError (List Color × Bool)
  | SourceColormap.discrete es, target_size, annotate =>
      if target_size ≤ 0 then Except.error CmapError.invalidArgument
      else if (es.length : ℤ) < target_size then Except.error CmapError.invalidArgument
      else if hasDup ((SourceColormap.discrete es).sample target_size.toNat) then
        Except.ok (es, false)
      else
        Except.ok ((SourceColormap.discrete es).sample target_size.toNat, annotate)
  | SourceColormap.continuous f, target_size, annotate =>
      if target_size ≤ 0 then Except.error CmapError.invalidArgument
      else if hasDup ((SourceColormap.continuous f).sample target_size.toNat) then
        Except.ok ((SourceColormap.continuous f).sample target_size.toNat, false)
      else
        Except.ok ((SourceColormap.continuous f).sample target_size.toNat, annotate)

deriving instance DecidableEq for Except

/-- The discrete custom palette the test builds:
`LinearSegmentedColormap.from_list('Custom cmap', [[0,0,0],[1,1,1],[0,0,0],[1,1,1]], 4)`,
whose 4 native entries are exactly black, white, black, white. -/
def bwbwEntries : List Color := [black, white, black, white]

/-! ## The sprite-generation pathway of src/brainsprite.py

Each Python function below is translated statement by statement.  A read
of a name that is bound neither among the function's locals nor at module
level is translated to `Except.error (PyError.nameError name)`: Python
raises `NameError` there (for a local that is assigned only on another
branch, the subclass `UnboundLocalError`).  Rendering collaborators keep a
log of the sprites they rasterized, so that "no file written before the
error" and "rendered before the error" are visible in the result. -/

/-- A Python runtime error observed in the pathway.  `nameError n` covers
both a failed global lookup (`NameError`) and a read of an unassigned
local (`UnboundLocalError`, a subclass of `NameError`). -/
inductive PyError where
  | nameError (name : String)
deriving DecidableEq, Repr

/-- A Niimg-like 3D volume, reduced to what the pathway reads: its voxel
data (ravelled), shape and affine. -/
structure Niimg where
  data : List ℚ
  shape : List ℕ
  affine : List (List ℚ)
deriving DecidableEq, Repr

/-- The `colors` dictionary produced by `colorscale`: the fields the
pathway reads. -/
structure ColorsDict where
  vmin : ℚ
  vmax : ℚ
  cmap : String
deriving DecidableEq, Repr

/-- A rasterized sprite: the arguments `_save_sprite` was given, standing
for the PNG it renders (rasterization itself is an external plotting
collaborator, out of scope per the spec). -/
structure Sprite where
  data : List ℚ
  vmax : ℚ
  vmin : ℚ
  mask : Option (List ℚ)
  cmap : String
  format : String
deriving DecidableEq, Repr

/-- Modelled from the spec: `nilearn._utils.niimg._safe_get_data`, an
external imaging collaborator returning the volume's (finite) data. -/
def _safe_get_data (img : Niimg) : List ℚ := img.data

/-- Modelled from the spec: `_save_sprite` (not under `src/`), the
rasterization collaborator; its result stands for the sprite it rendered
into its target buffer or file. -/
def _save_sprite (data : List ℚ) (vmax vmin : ℚ) (mask : Option (List ℚ))
    (cmap : String) (format : String) : Sprite :=
  ⟨data, vmax, vmin, mask, cmap, format⟩

/-- Modelled from the spec: `_bytesIO_to_base64` (not under `src/`),
base64-encodes an in-memory buffer; the encoding itself is external, so a
stand-in tagging its input is used. -/
def _bytesIO_to_base64 (s : Sprite) : String :=
  "base64(" ++ s.cmap ++ "," ++ s.format ++ ")"

/-- Translation of `_output_sprite` (src/brainsprite.py lines 41-55).
Returns the log of sprites rendered together with the Python result.
In the `None` branch a fresh buffer is bound to `stat_map_sprite`, the
sprite is rendered into it, and its base64 encoding is returned.  In the
`else` branch the source reads `stat_map_sprite`, a local assigned only in
the `None` branch, as `_save_sprite`'s target: Python raises
`UnboundLocalError` (a `NameError`) while evaluating the argument list,
before `_save_sprite` runs, so nothing is rendered or written. -/
def _output_sprite (output_sprite : Option String) (stat_map_img mask_img : Niimg)
    (colors : ColorsDict) (cmap : String) : List Sprite × Except PyError String :=
  let data := _safe_get_data stat_map_img
  let mask := _safe_get_data mask_img
  match output_sprite with
  | none =>
      let stat_map_sprite := _save_sprite data colors.vmax colors.vmin (some mask) cmap "png"
      ([stat_map_sprite], Except.ok (_bytesIO_to_base64 stat_map_sprite))
  | some _ =>
      ([], Except.error (PyError.nameError "stat_map_sprite"))

/-- Translation of `_output_sprite_bg` (src/brainsprite.py lines 58-71).
In the `None` branch the source rebinds `output_sprite_bg` to a fresh
buffer and renders the background sprite into it, but then returns
`_bytesIO_to_base64(bg_sprite)`: the name `bg_sprite` is bound nowhere in
the function or the module, so Python raises `NameError` after the render,
and the base64 string is never produced.  In the `else` branch the sprite
is rendered into the given file and `""` is returned. -/
def _output_sprite_bg (output_sprite_bg : Option String) (bg_img : Niimg)
    (bg_min bg_max : ℚ) : List Sprite × Except PyError String :=
  let bg_data := _safe_get_data bg_img
  match output_sprite_bg with
  | none =>
      let buf := _save_sprite bg_data bg_max bg_min none "gray" "png"
      ([buf], Except.error (PyError.nameError "bg_sprite"))
  | some _ =>
      let buf := _save_sprite bg_data bg_max bg_min none "gray" "png"
      ([buf], Except.ok "")

/-- Modelled from the spec: `_mask_stat_map` (not under `src/`), the
thresholding collaborator; assumed to return (mask, stat map, data,
threshold). -/
def _mask_stat_map (stat_map_img : Niimg) (threshold : ℚ) :
    Niimg × Niimg × List ℚ × ℚ :=
  (stat_map_img, stat_map_img, stat_map_img.data, threshold)

/-- Modelled from the spec: `colorscale` (not under `src/`), the color
range collaborator; assumed to return a colors dictionary. -/
def colorscale (cmap : String) (data : List ℚ) (threshold : ℚ)
    (symmetric_cmap : Bool) (vmax vmin : Option ℚ) : ColorsDict :=
  ⟨vmin.getD (data.foldr min 0), vmax.getD (data.foldr max threshold), cmap⟩

/-- Modelled from the spec: `_load_bg_img` (not under `src/`), the
background-loading collaborator; assumed to return (bg image, bg min,
bg max, black_bg). -/
def _load_bg_img (stat_map_img bg_img : Niimg) (black_bg : Bool) (dim : ℚ) :
    Niimg × ℚ × ℚ × Bool :=
  (bg_img, bg_img.data.foldr min 0 - dim, bg_img.data.foldr max 0, black_bg)

/-- Modelled from the spec: `_resample_stat_map` (not under `src/`), the
resampling collaborator; assumed to return the resampled images. -/
def _resample_stat_map (stat_map_img bg_img mask_img : Niimg)
    (resampling_interpolation : String) : Niimg × Niimg :=
  ({ stat_map_img with shape := bg_img.shape }, { mask_img with shape := bg_img.shape })

/-- Modelled from the spec: `_get_cut_slices` (not under `src/`), the
slice-selection collaborator; assumed to return cut slices. -/
def _get_cut_slices (stat_map_img : Niimg) (cut_coords : Option (ℚ × ℚ × ℚ))
    (threshold : ℚ) : ℚ × ℚ × ℚ :=
  cut_coords.getD (0, 0, threshold)

/-- Modelled from the spec: `_json_view_data` (not under `src/`), the
collaborator assembling the json-like viewer data; assumed to return. -/
def _json_view_data (bg_img stat_map_img mask_img : Niimg) (bg_min bg_max : ℚ)
    (colors : ColorsDict) (cmap : String) (colorbar : Bool) : List String :=
  [cmap, colors.cmap, toString bg_min, toString bg_max, toString colorbar,
   toString bg_img.shape.length, toString stat_map_img.shape.length,
   toString mask_img.shape.length]

/-- Translation of `sprite_data` (src/brainsprite.py lines 121-274); one
`black_bg` parameter stands for the two identically named ones of the
source (see `sprite_data_param_names`), and external pipeline steps are
the spec-modelled collaborators above, all of which return.  The body runs
the pipeline, binds the result of `_json_view_data` to `json_data`, and
then stores into `json_view['params']`: the name `json_view` is bound
nowhere in the function or the module, so every call raises `NameError`
there and the html snippet promised by the docstring is never returned. -/
def sprite_data (stat_map_img bg_img : Niimg)
    (output_sprite output_sprite_bg output_cm : Option String)
    (id_viewer id_sprite id_sprite_bg id_cm : String)
    (cut_coords : Option (ℚ × ℚ × ℚ)) (flag_value colorbar : Bool)
    (title onclick : Option String) (threshold : ℚ) (annotate draw_cross : Bool)
    (black_bg : Bool) (cmap : String) (symmetric_cmap : Bool) (dim : ℚ)
    (vmax vmin : Option ℚ) (resampling_interpolation : String) (opacity : ℚ) :
    Except PyError String :=
  let (mask_img, stat_map_img, data, threshold) := _mask_stat_map stat_map_img threshold
  let colors := colorscale cmap data threshold symmetric_cmap vmax vmin
  let (bg_img, bg_min, bg_max, black_bg) := _load_bg_img stat_map_img bg_img black_bg dim
  let (stat_map_img, mask_img) := _resample_stat_map stat_map_img bg_img mask_img
    resampling_interpolation
  let cut_slices := _get_cut_slices stat_map_img cut_coords threshold
  let json_data := _json_view_data bg_img stat_map_img mask_img bg_min bg_max
    colors cmap colorbar
  Except.error (PyError.nameError "json_view")

/-! ## Syntactic record of src/brainsprite.py

Transcriptions of the source text needed for the claims about its visible
inconsistencies: parameter lists, bound and read names, and return
arities. -/

/-- The parameter names of `sprite_data` as written in the source
(lines 121-148), in order, `**kwargs` aside: `black_bg` is declared
twice. -/
def sprite_data_param_names : List String :=
  ["stat_map_img", "bg_img", "output_sprite", "output_sprite_bg", "output_cm",
   "id_viewer", "id_sprite", "id_sprite_bg", "id_cm", "cut_coords",
   "flag_value", "colorbar", "title", "onclick", "threshold", "annotate",
   "draw_cross", "black_bg", "black_bg", "cmap", "symmetric_cmap", "dim",
   "vmax", "vmin", "resampling_interpolation", "opacity"]

/-- The names the docstring of `sprite_data` documents under `Returns`
(lines 240-246): `view_js` and `view_html`. -/
def sprite_data_doc_return_names : List String := ["view_js", "view_html"]

/-- The expressions of the single `return` statement of `sprite_data`'s
body (line 274): the one value `html_view`. -/
def sprite_data_body_return_exprs : List String := ["html_view"]

/-- The names bound in the scope of `_get_text_data` (lines 33-38): its
parameter `data_name`, the assigned local `data_path`, and the `with`
target `f`. -/
def _get_text_data_bound_names : List String := ["data_name", "data_path", "f"]

/-- The variable names read by the body of `_get_text_data`
(lines 33-38): note `datas_name`, not the parameter `data_name`. -/
def _get_text_data_read_names : List String :=
  ["os", "__file__", "datas_name", "data_path", "open", "f"]

/-- The names bound at module level in src/brainsprite.py: the imports
(lines 10-31) and the five function definitions. -/
def brainsprite_module_names : List String :=
  ["warnings", "np", "os", "encodebytes", "json", "nb", "numbers", "cm",
   "mpl_cm", "colors", "_safe_get_data", "fast_abs_percentile", "plt",
   "imsave", "_load_anat", "_get_colorbar_and_data_ranges",
   "load_mni152_template", "HTMLDocument", "check_niimg_3d", "image",
   "BytesIO", "StringIO", "find_xyz_cut_coords", "_get_text_data",
   "_output_sprite", "_output_sprite_bg", "_output_cm", "_view_html",
   "sprite_data"]

/-! ## Lemmas about sampling -/

/-- `samplePoints k` has `k` points for positive `k`. -/
lemma length_samplePoints (k : ℕ) (hk : 0 < k) : (samplePoints k).length = k := by
  unfold samplePoints
  split
  · simp only [List.length_singleton]
    omega
  · rw [List.length_map, List.length_range]

/-- A sample of requested positive size `k` has `k` entries. -/
lemma length_sample (src : SourceColormap) (k : ℕ) (hk : 0 < k) :
    (SourceColormap.sample src k).length = k := by
  cases src with
  | continuous f => simp [SourceColormap.sample, length_samplePoints k hk]
  | discrete es => simp [SourceColormap.sample]

/-- Sampling a discrete palette at its own native size selects the indices
`i * N / N = i`: the native entries, unmodified and in order. -/
lemma sample_discrete_self (es : List Color) :
    SourceColormap.sample (SourceColormap.discrete es) es.length = es := by
  rcases Nat.eq_zero_or_pos es.length with h0 | hpos
  · rw [List.length_eq_zero.mp h0]
    rfl
  · apply List.ext_getElem
    · simp [SourceColormap.sample]
    · intro i h1 h2
      simp only [SourceColormap.sample, List.getElem_map, List.getElem_range]
      rw [Nat.mul_div_cancel i hpos]
      exact List.getD_eq_getElem es default h2

/-! ## Claims about the colormap-deduplication core -/

/-- C1 (counterexample): the claim demands that the concrete call on the
discrete [black, white, black, white] source with requested size 2 return
2 entries; the code (the test assertion `cmap.N == cmap_custom.N`) returns
the 4 native entries instead. -/
theorem C1_counterexample :
    ¬ (Except.map (fun p => p.1.length)
        (deduplicate (SourceColormap.discrete bwbwEntries) 2 true)
      = Except.ok (Int.toNat 2)) := by
  decide

/-- C1 (amended): for every successful call, the returned palette has
exactly `target_size` entries when the sample is duplicate-free; when the
sample contains duplicates the palette has the source's fallback size —
a discrete source's native entry count (so the concrete
[black, white, black, white] source with requested size 2 yields 4
entries), the requested size for a continuous source. -/
theorem C1_palette_size (src : SourceColormap) (k : ℤ) (a : Bool)
    (p : List Color × Bool) (h : deduplicate src k a = Except.ok p) :
    p.1.length =
      if hasDup (SourceColormap.sample src (Int.toNat k))
      then SourceColormap.nativeSize src (Int.toNat k)
      else Int.toNat k := by
  cases src with
  | continuous f =>
      simp only [deduplicate] at h
      split at h
      · simp at h
      · rename_i hk
        split at h
        · rename_i hdup
          injection h with h2
          rw [if_pos hdup, ← h2, SourceColormap.nativeSize]
          exact length_sample (SourceColormap.continuous f) (Int.toNat k) (by omega)
        · rename_i hdup
          injection h with h2
          rw [if_neg hdup, ← h2]
          exact length_sample (SourceColormap.continuous f) (Int.toNat k) (by omega)
  | discrete es =>
      simp only [deduplicate] at h
      split at h
      · simp at h
      · rename_i hk
        split at h
        · simp at h
        · rename_i hsz
          split at h
          · rename_i hdup
            injection h with h2
            rw [if_pos hdup, ← h2, SourceColormap.nativeSize]
          · rename_i hdup
            injection h with h2
            rw [if_neg hdup, ← h2]
            exact length_sample (SourceColormap.discrete es) (Int.toNat k) (by omega)

/-- C1 witness: the amended size law applied at the test's concrete call. -/
theorem C1_palette_size_witness :
    (bwbwEntries, false).1.length =
      if hasDup (SourceColormap.sample (SourceColormap.discrete bwbwEntries) (Int.toNat 2))
      then SourceColormap.nativeSize (SourceColormap.discrete bwbwEntries) (Int.toNat 2)
      else Int.toNat 2 :=
  C1_palette_size (SourceColormap.discrete bwbwEntries) 2 true (bwbwEntries, false)
    (by decide)

/-- C2: whenever the sampled palette contains a duplicate entry, a
successful call returns the annotation flag `false`, whatever the caller
requested. -/
theorem C2_dup_forces_flag_off (src : SourceColormap) (k : ℤ) (a : Bool)
    (p : List Color × Bool) (h : deduplicate src k a = Except.ok p)
    (hdup : hasDup (SourceColormap.sample src (Int.toNat k)) = true) :
    p.2 = false := by
  cases src with
  | continuous f =>
      simp only [deduplicate] at h
      split at h
      · simp at h
      · injection h with h2
        rw [← h2]
  | discrete es =>
      simp only [deduplicate] at h
      split at h
      · simp at h
      · split at h
        · simp at h
        · injection h with h2
          rw [← h2]

/-- C2 witness: the concrete [black, white, black, white] call with
`annotate = true` comes back with the flag off. -/
theorem C2_dup_forces_flag_off_witness : ((bwbwEntries, false) : List Color × Bool).2 = false :=
  C2_dup_forces_flag_off (SourceColormap.discrete bwbwEntries) 2 true (bwbwEntries, false)
    (by decide) (by decide)

/-- C3: whenever the sampled entries are pairwise distinct, a successful
call returns the sampled palette itself and passes the caller's
annotation request through unchanged. -/
theorem C3_distinct_passthrough (src : SourceColormap) (k : ℤ) (a : Bool)
    (p : List Color × Bool) (h : deduplicate src k a = Except.ok p)
    (hnd : hasDup (SourceColormap.sample src (Int.toNat k)) = false) :
    p.1 = SourceColormap.sample src (Int.toNat k) ∧ p.2 = a := by
  cases src with
  | continuous f =>
      simp only [deduplicate] at h
      split at h
      · simp at h
      · rw [if_neg (by simp [hnd])] at h
        injection h with h2
        rw [← h2]
        exact ⟨rfl, rfl⟩
  | discrete es =>
      simp only [deduplicate] at h
      split at h
      · simp at h
      · split at h
        · simp at h
        · rw [if_neg (by simp [hnd])] at h
          injection h with h2
          rw [← h2]
          exact ⟨rfl, rfl⟩

/-- C3 witness: a duplicate-free discrete palette [black, white] sampled
at its own size passes `annotate = true` through and returns the sample. -/
theorem C3_distinct_passthrough_witness :
    (([black, white], true) : List Color × Bool).1
        = SourceColormap.sample (SourceColormap.discrete [black, white]) (Int.toNat 2) ∧
    (([black, white], true) : List Color × Bool).2 = true :=
  C3_distinct_passthrough (SourceColormap.discrete [black, white]) 2 true
    ([black, white], true) (by decide) (by decide)

/-- C4: `deduplicate` fails with `invalidArgument` exactly when the
requested size is non-positive, or the source is discrete and the request
exceeds its native entry count. -/
theorem C4_invalid_argument_iff (src : SourceColormap) (k : ℤ) (a : Bool) :
    deduplicate src k a = Except.error CmapError.invalidArgument ↔
      (k ≤ 0 ∨ ∃ es, src = SourceColormap.discrete es ∧ (es.length : ℤ) < k) := by
  cases src with
  | continuous f =>
      simp only [deduplicate]
      constructor
      · intro h
        split at h
        · left; assumption
        · split at h <;> simp at h
      · intro h
        rcases h with hk | ⟨es, hes, hlt⟩
        · rw [if_pos hk]
        · simp at hes
  | discrete es =>
      simp only [deduplicate]
      constructor
      · intro h
        split at h
        · left; assumption
        · split at h
          · right; exact ⟨es, rfl, by assumption⟩
          · split at h <;> simp at h
      · intro h
        rcases h with hk | ⟨es2, hes, hlt⟩
        · rw [if_pos hk]
        · injection hes with h2
          subst h2
          split
          · rfl
          · rfl

/-- C5 (counterexample): the claim says an infeasible call signals only
via the flag "together with a palette of the requested size"; at the
concrete infeasible call the palette returned has 4 entries, not the
requested 2. -/
theorem C5_counterexample :
    deduplicate (SourceColormap.discrete bwbwEntries) 2 true
        = Except.ok (bwbwEntries, false) ∧
    bwbwEntries.length ≠ Int.toNat 2 := by
  decide

/-- C5 (amended): on every valid input whose sample contains duplicates,
`deduplicate` raises no error: infeasibility is signaled only by the
returned `annotation_enabled = false` flag (the palette returned is the
discrete source's native palette, not necessarily of the requested
size). -/
theorem C5_infeasible_no_error (src : SourceColormap) (k : ℤ) (a : Bool)
    (hk : 0 < k)
    (hsz : ∀ es, src = SourceColormap.discrete es → k ≤ (es.length : ℤ))
    (hdup : hasDup (SourceColormap.sample src (Int.toNat k)) = true) :
    ∃ p, deduplicate src k a = Except.ok p ∧ p.2 = false := by
  cases src with
  | continuous f =>
      refine ⟨((SourceColormap.continuous f).sample (Int.toNat k), false), ?_, rfl⟩
      simp only [deduplicate]
      rw [if_neg (by omega), if_pos hdup]
  | discrete es =>
      refine ⟨(es, false), ?_, rfl⟩
      simp only [deduplicate]
      rw [if_neg (by omega), if_neg (by have := hsz es rfl; omega), if_pos hdup]

/-- C5 witness: the concrete infeasible call succeeds with the flag off. -/
theorem C5_infeasible_no_error_witness :
    ∃ p, deduplicate (SourceColormap.discrete bwbwEntries) 2 true = Except.ok p ∧
      p.2 = false :=
  C5_infeasible_no_error (SourceColormap.discrete bwbwEntries) 2 true (by decide)
    (fun es hes => by injection hes with h2; subst h2; decide) (by decide)

/-- C6: sampling a nonempty discrete source at its own native size selects
every index once, so the call returns the source's entries unmodified and
in order (with some flag value). -/
theorem C6_native_size_identity (es : List Color) (a : Bool) (hne : es ≠ []) :
    ∃ b, deduplicate (SourceColormap.discrete es) (es.length : ℤ) a
      = Except.ok (es, b) := by
  have hpos : 0 < es.length := List.length_pos.mpr hne
  have htn : ((es.length : ℤ)).toNat = es.length := Int.toNat_natCast es.length
  simp only [deduplicate]
  rw [if_neg (by omega), if_neg (by omega), htn, sample_discrete_self]
  split
  · exact ⟨false, rfl⟩
  · exact ⟨a, rfl⟩

/-- C6 witness: the duplicate-free palette [black, white] at its native
size 2 comes back unchanged. -/
theorem C6_native_size_identity_witness :
    ∃ b, deduplicate (SourceColormap.discrete [black, white])
        ((([black, white] : List Color).length : ℤ)) true
      = Except.ok ([black, white], b) :=
  C6_native_size_identity [black, white] true (by decide)

/-! ## Claims about the sprite-generation pathway -/

/-- C7: the sprite-generation pathway's source text declares the
`black_bg` parameter of `sprite_data` twice, reads the name `datas_name`
in `_get_text_data` although it is bound neither in that function's scope
nor at module level, and documents two return values (`view_js`,
`view_html`) for `sprite_data` while its body returns a single value. -/
theorem C7_source_inconsistencies :
    sprite_data_param_names.count "black_bg" = 2 ∧
    "datas_name" ∈ _get_text_data_read_names ∧
    "datas_name" ∉ _get_text_data_bound_names ∧
    "datas_name" ∉ brainsprite_module_names ∧
    sprite_data_doc_return_names.length = 2 ∧
    sprite_data_body_return_exprs.length = 1 ∧
    sprite_data_doc_return_names.length ≠ sprite_data_body_return_exprs.length := by
  decide

/-- C8: whenever the pipeline collaborators return, `sprite_data` reaches
the store into `json_view['params']` and raises `NameError` there, since
`_json_view_data`'s result was bound to `json_data` and `json_view` is
bound nowhere; in particular no call ever returns the documented html
snippet. -/
theorem C8_sprite_data_json_view_name_error (stat_map_img bg_img : Niimg)
    (output_sprite output_sprite_bg output_cm : Option String)
    (id_viewer id_sprite id_sprite_bg id_cm : String)
    (cut_coords : Option (ℚ × ℚ × ℚ)) (flag_value colorbar : Bool)
    (title onclick : Option String) (threshold : ℚ) (annotate draw_cross : Bool)
    (black_bg : Bool) (cmap : String) (symmetric_cmap : Bool) (dim : ℚ)
    (vmax vmin : Option ℚ) (resampling_interpolation : String) (opacity : ℚ) :
    sprite_data stat_map_img bg_img output_sprite output_sprite_bg output_cm
      id_viewer id_sprite id_sprite_bg id_cm cut_coords flag_value colorbar
      title onclick threshold annotate draw_cross black_bg cmap symmetric_cmap
      dim vmax vmin resampling_interpolation opacity
      = Except.error (PyError.nameError "json_view") := rfl

/-- C9: every call of `_output_sprite` with a non-None `output_sprite`
raises `NameError` on the unbound local `stat_map_sprite` with an empty
render log: no file is written. -/
theorem C9_output_sprite_unbound_local (path : String)
    (stat_map_img mask_img : Niimg) (colors : ColorsDict) (cmap : String) :
    _output_sprite (some path) stat_map_img mask_img colors cmap
      = ([], Except.error (PyError.nameError "stat_map_sprite")) := rfl

/-- C10: every call of `_output_sprite_bg` with `output_sprite_bg = None`
renders the background sprite into the in-memory buffer (the render log
holds exactly that sprite) and then raises `NameError` on the unbound name
`bg_sprite` instead of returning the buffer's base64 encoding. -/
theorem C10_output_sprite_bg_name_error (bg_img : Niimg) (bg_min bg_max : ℚ) :
    _output_sprite_bg none bg_img bg_min bg_max
      = ([_save_sprite (_safe_get_data bg_img) bg_max bg_min none "gray" "png"],
         Except.error (PyError.nameError "bg_sprite")) := rfl
